import Mathlib

/-!
Shallow embedding of `src/server.js` (va-efb-proxy).

The repository holds two variants of the same Express proxy in one file,
separated by a document marker: the first variant (lines 1-266) defines
`getClientToken`, the handlers `GET /api/_debug/flights-raw`,
`GET /api/_debug/info`, `GET /api/flights`,
`POST /api/flights/:flightId/events`, `POST /api/login`, and a
healthcheck; the second variant (lines 267-359) defines `getToken` and its
own `GET /api/_debug/flights-raw`, `GET /api/flights` and healthcheck.

Modelling conventions:
* JavaScript values that may be `null`/`undefined` are `Option`s; JS
  truthiness of a string-or-null value is `truthy`.
* `Date.now()` timestamps are `Int` milliseconds; the possibly-NaN
  `tokenExpiresAt` of the second variant is `Option Int`, with `none`
  standing for NaN (any `<` comparison against NaN is false, matching
  `jsLt`).
* Each upstream HTTP exchange is an explicit argument: `UpstreamResp` for
  the token endpoint (its `json` field is the result of `JSON.parse` on
  its body text, `none` when parsing throws), `FetchResp` for the flights
  endpoint (its `jsonText` field is the re-serialisation of
  `JSON.parse(text)` used by `res.json`, `none` when parsing throws).
  Network failures of the flights fetch are the `Except.error` case.
* Handlers return the HTTP response sent to the client, the token-cache
  state after the call, and the number of upstream token requests made.
* A thrown JS `Error` is `Except.error msg` carrying the error message.
-/

namespace VaEfb

/-- JS truthiness of a string variable that may be null/undefined
(`cachedToken`, destructured `username`/`password`). -/
def truthy : Option String → Bool
  | none => false
  | some s => if s = "" then false else true

/-- JS `<` on a number that may be NaN on the right (`now < tokenExpiresAt`
in the second variant, where `tokenExpiresAt` can be NaN): any comparison
with NaN is false. -/
def jsLt (n : Int) : Option Int → Bool
  | none => false
  | some x => n < x

/-- JS `x || d` for a possibly-missing number `x` (`data.expires_in || 3600`):
`undefined` and `0` are falsy. -/
def jsOrDefault (o : Option Int) (d : Int) : Int :=
  match o with
  | none => d
  | some x => if x = 0 then d else x

/-- The environment-derived configuration read at startup
(`API_BASE`, `TOKEN_URL`, `CORS_ORIGIN`, `CLIENT_ID`, `CLIENT_SECRET`,
`ENABLE_PASSWORD_GRANT`). Unset env vars default to `""`, so "unset" is
the empty string, as in `const CLIENT_ID = process.env.VAMSYS_CLIENT_ID || ""`. -/
structure Config where
  apiBase : String
  tokenUrl : String
  corsOrigin : String
  clientId : String
  clientSecret : String
  enablePasswordGrant : Bool
deriving DecidableEq

/-- The parsed JSON body of a token-endpoint response
(`{access_token, token_type, expires_in, refresh_token, scope}`); every
field may be absent. -/
structure TokenData where
  access_token : Option String
  token_type : Option String
  expires_in : Option Int
  refresh_token : Option String
  scope : Option String
deriving DecidableEq

/-- A response of the upstream OAuth token endpoint as the proxy observes
it: `ok`/`status` from fetch, `text` the body text, and `json` the result
of `JSON.parse(text)` (`none` when parsing throws). -/
structure UpstreamResp where
  ok : Bool
  status : Int
  text : String
  json : Option TokenData
deriving DecidableEq

/-- A response of the upstream flights endpoint: `status`, body `text`,
and `jsonText` the re-serialisation of `JSON.parse(text)` (`none` when
parsing throws), which is what `res.json(data)` would send. -/
structure FetchResp where
  status : Int
  text : String
  jsonText : Option String
deriving DecidableEq

/-- The process-wide token cache: the mutable pair
`let cachedToken` / `let tokenExpiresAt`. `cachedToken` is `none` for
JS `null`/`undefined`; `tokenExpiresAt` is `none` for NaN. -/
structure Cache where
  cachedToken : Option String
  tokenExpiresAt : Option Int
deriving DecidableEq

/-- Initial cache of the first variant: `cachedToken = ""`,
`tokenExpiresAt = 0`. -/
def initialCache : Cache := ⟨some "", some 0⟩

/-- Initial cache of the second variant: `cachedToken = null`,
`tokenExpiresAt = 0`. -/
def initialCache2 : Cache := ⟨none, some 0⟩

/-- The cache-validity test both token functions start with:
`cachedToken && now < tokenExpiresAt`. -/
def cacheValid (st : Cache) (now : Int) : Bool :=
  truthy st.cachedToken && jsLt now st.tokenExpiresAt

/-- The message of the error thrown by `getClientToken` on a non-OK
token response: `Token request failed (${r.status}): ${txt}`. -/
def tokenFailMsg (r : UpstreamResp) : String :=
  "Token request failed (" ++ toString r.status ++ "): " ++ r.text

/-- The expiry stored by `getClientToken`:
`now + Math.max(0, (data.expires_in || 3600) - 60) * 1000`. -/
def clientExpiry (now : Int) (ei : Option Int) : Int :=
  now + (max 0 (jsOrDefault ei 3600 - 60)) * 1000

/-- First variant `getClientToken` (src/server.js lines 64-99), with the
current time and the token-endpoint exchange as explicit arguments.
Returns the function's result (`Except.error` models a thrown `Error`),
the cache after the call, and how many upstream token requests were made.
The `assertEnv` guards throw when `CLIENT_ID`/`CLIENT_SECRET` is unset
(empty); `JSON.parse` throwing on a non-JSON body is the `r.json = none`
case. -/
def getClientToken (cfg : Config) (st : Cache) (now : Int) (r : UpstreamResp) :
    Except String (Option String) × Cache × Nat :=
  if cacheValid st now then
    (Except.ok st.cachedToken, st, 0)
  else if cfg.clientId = "" then
    (Except.error "Missing env var: VAMSYS_CLIENT_ID", st, 0)
  else if cfg.clientSecret = "" then
    (Except.error "Missing env var: VAMSYS_CLIENT_SECRET", st, 0)
  else if r.ok = false then
    (Except.error (tokenFailMsg r), st, 1)
  else
    match r.json with
    | none => (Except.error "Unexpected token in JSON", st, 1)
    | some data =>
        (Except.ok data.access_token,
         ⟨data.access_token, some (clientExpiry now data.expires_in)⟩, 1)

/-- The expiry stored by the second variant's `getToken`:
`now + (data.expires_in - 60) * 1000`, which is NaN (`none`) when
`expires_in` is absent. -/
def tokenExpiry2 (now : Int) (ei : Option Int) : Option Int :=
  match ei with
  | none => none
  | some x => some (now + (x - 60) * 1000)

/-- Second variant `getToken` (src/server.js lines 289-317). No env
assertion; credentials are only placed in the upstream request body,
which the model tracks only as the request count. A non-OK response
throws `Token error: ${t}`; `res.json()` throwing on a non-JSON body is
the `r.json = none` case. -/
def getToken (cfg : Config) (st : Cache) (now : Int) (r : UpstreamResp) :
    Except String (Option String) × Cache × Nat :=
  if cacheValid st now then
    (Except.ok st.cachedToken, st, 0)
  else if r.ok = false then
    (Except.error ("Token error: " ++ r.text), st, 1)
  else
    match r.json with
    | none => (Except.error "Unexpected token in JSON", st, 1)
    | some data =>
        (Except.ok data.access_token,
         ⟨data.access_token, tokenExpiry2 now data.expires_in⟩, 1)

/-- An HTTP response sent to the client. JSON bodies are rendered as
their serialised text. -/
structure HttpResponse where
  status : Int
  body : String
deriving DecidableEq

/-- The body sent by `res.json({ error: msg })` in the catch blocks. -/
def jsonError (msg : String) : String :=
  "\x7b\"error\":\"" ++ msg ++ "\"\x7d"

/-- First variant `GET /api/flights` (src/server.js lines 183-197):
acquire a client-credentials token, fetch `${API_BASE}/flights` with it,
relay status and body text; any thrown error is collapsed to
`500 {error}`. `fl` is the flights fetch outcome (`Except.error` a
network failure). -/
def flightsHandler (cfg : Config) (st : Cache) (now : Int) (r : UpstreamResp)
    (fl : Except String FetchResp) : HttpResponse × Cache × Nat :=
  match getClientToken cfg st now r with
  | (Except.error e, st1, n) => (⟨500, jsonError e⟩, st1, n)
  | (Except.ok _, st1, n) =>
      match fl with
      | Except.error e => (⟨500, jsonError e⟩, st1, n)
      | Except.ok fr => (⟨fr.status, fr.text⟩, st1, n)

/-- First variant `GET /api/_debug/flights-raw` (src/server.js lines
148-160): identical logic to the flights handler. -/
def debugFlightsRaw (cfg : Config) (st : Cache) (now : Int) (r : UpstreamResp)
    (fl : Except String FetchResp) : HttpResponse × Cache × Nat :=
  match getClientToken cfg st now r with
  | (Except.error e, st1, n) => (⟨500, jsonError e⟩, st1, n)
  | (Except.ok _, st1, n) =>
      match fl with
      | Except.error e => (⟨500, jsonError e⟩, st1, n)
      | Except.ok fr => (⟨fr.status, fr.text⟩, st1, n)

/-- Second variant `GET /api/flights` (src/server.js lines 335-350):
same forwarding via `getToken`; the catch sends `e.message`, so the body
is the same `jsonError` rendering. -/
def flightsHandler2 (cfg : Config) (st : Cache) (now : Int) (r : UpstreamResp)
    (fl : Except String FetchResp) : HttpResponse × Cache × Nat :=
  match getToken cfg st now r with
  | (Except.error e, st1, n) => (⟨500, jsonError e⟩, st1, n)
  | (Except.ok _, st1, n) =>
      match fl with
      | Except.error e => (⟨500, jsonError e⟩, st1, n)
      | Except.ok fr => (⟨fr.status, fr.text⟩, st1, n)

/-- The `String(e)` rendering of a thrown `Error` used by the second
variant's debug catch block: `"Error: " + message`. -/
def jsErrorString (msg : String) : String := "Error: " ++ msg

/-- Second variant `GET /api/_debug/flights-raw` (src/server.js lines
318-331): unlike the other passthroughs it does `const data = await
r.json(); res.json(data)`, i.e. it re-parses the upstream body and sends
it with the default status 200, never relaying `r.status`; a parse
failure throws (collapsed to 500). -/
def debugFlightsRaw2 (cfg : Config) (st : Cache) (now : Int) (r : UpstreamResp)
    (fl : Except String FetchResp) : HttpResponse × Cache × Nat :=
  match getToken cfg st now r with
  | (Except.error e, st1, n) => (⟨500, jsonError (jsErrorString e)⟩, st1, n)
  | (Except.ok _, st1, n) =>
      match fl with
      | Except.error e => (⟨500, jsonError (jsErrorString e)⟩, st1, n)
      | Except.ok fr =>
          match fr.jsonText with
          | none =>
              (⟨500, jsonError (jsErrorString "invalid json response body")⟩,
               st1, n)
          | some j => (⟨200, j⟩, st1, n)

/-- JS `Boolean(s)` for a string env var (empty means unset/falsy). -/
def jsBoolOfString (s : String) : Bool := if s = "" then false else true

/-- `true`/`false` as serialised JSON. -/
def boolText (b : Bool) : String := if b then "true" else "false"

/-- Body of `GET /api/_debug/info` (src/server.js lines 163-172): the
config echo that exposes only `Boolean(CLIENT_ID)` / `Boolean(CLIENT_SECRET)`,
never the values. -/
def infoBody (cfg : Config) : String :=
  "\x7b\"apiBase\":\"" ++ cfg.apiBase ++ "\",\"tokenUrl\":\"" ++ cfg.tokenUrl ++
    "\",\"corsOrigin\":\"" ++ cfg.corsOrigin ++ "\",\"passwordGrantEnabled\":" ++
    boolText cfg.enablePasswordGrant ++ ",\"hasClientId\":" ++
    boolText (jsBoolOfString cfg.clientId) ++ ",\"hasClientSecret\":" ++
    boolText (jsBoolOfString cfg.clientSecret) ++ "\x7d"

/-- `GET /api/_debug/info` handler. -/
def debugInfo (cfg : Config) : HttpResponse := ⟨200, infoBody cfg⟩

/-- The serialised `{}` default for a missing request body (`req.body || {}`). -/
def emptyObjText : String := "\x7b\x7d"

/-- Body of the events echo: `{ok:true, flightId, received: ev, note}`. -/
def eventsBody (flightId : String) (ev : String) : String :=
  "\x7b\"ok\":true,\"flightId\":\"" ++ flightId ++ "\",\"received\":" ++ ev ++
    ",\"note\":\"Stored nowhere yet (demo).\"\x7d"

/-- `POST /api/flights/:flightId/events` (src/server.js lines 204-221):
pure echo, no upstream call, no cache access. `body` is the serialised
request body, `none` when absent. -/
def eventsHandler (st : Cache) (flightId : String) (body : Option String) :
    HttpResponse × Cache × Nat :=
  (⟨200, eventsBody flightId (body.getD emptyObjText)⟩, st, 0)

/-- A parsed `POST /api/login` request body; `username`/`password` may be
absent. -/
structure LoginBody where
  username : Option String
  password : Option String
deriving DecidableEq

/-- `getPilotTokenByPassword` (src/server.js lines 107-134): asserts the
client env vars, makes one token request, throws
`Password token failed (${r.status}): ${txt}` on non-OK, else returns the
parsed JSON. Returns the result and the number of upstream token
requests made. -/
def getPilotTokenByPassword (cfg : Config) (r : UpstreamResp) :
    Except String TokenData × Nat :=
  if cfg.clientId = "" then
    (Except.error "Missing env var: VAMSYS_CLIENT_ID", 0)
  else if cfg.clientSecret = "" then
    (Except.error "Missing env var: VAMSYS_CLIENT_SECRET", 0)
  else if r.ok = false then
    (Except.error
      ("Password token failed (" ++ toString r.status ++ "): " ++ r.text), 1)
  else
    match r.json with
    | none => (Except.error "Unexpected token in JSON", 1)
    | some d => (Except.ok d, 1)

/-- Serialisation of a possibly-absent JSON string field (`undefined`
fields are dropped by `JSON.stringify`; the model renders them as the
literal `null` marker only to keep the body a plain string — the claims
depend on no finer detail of this rendering). -/
def optFieldText (o : Option String) : String :=
  match o with
  | none => "null"
  | some s => "\"" ++ s ++ "\""

/-- Serialisation of a possibly-absent JSON number field. -/
def optIntText (o : Option Int) : String :=
  match o with
  | none => "null"
  | some n => toString n

/-- Body of a successful `POST /api/login` response: the selected fields
`access_token, token_type, expires_in, refresh_token, scope` of the
upstream token data. -/
def loginOkBody (d : TokenData) : String :=
  "\x7b\"access_token\":" ++ optFieldText d.access_token ++
    ",\"token_type\":" ++ optFieldText d.token_type ++
    ",\"expires_in\":" ++ optIntText d.expires_in ++
    ",\"refresh_token\":" ++ optFieldText d.refresh_token ++
    ",\"scope\":" ++ optFieldText d.scope ++ "\x7d"

/-- The 400 message when the password grant is disabled. -/
def pwDisabledMsg : String :=
  "Password grant disabled. Set ENABLE_PASSWORD_GRANT=1 only if your vAMSYS supports it."

/-- `POST /api/login` (src/server.js lines 231-259): 400 when the grant
is disabled or username/password is missing (no upstream call); otherwise
one password-grant token request, whose failure the catch maps to
`401 {error}`. The handler never touches the token cache. -/
def loginHandler (cfg : Config) (st : Cache) (body : Option LoginBody)
    (r : UpstreamResp) : HttpResponse × Cache × Nat :=
  if cfg.enablePasswordGrant = false then
    (⟨400, jsonError pwDisabledMsg⟩, st, 0)
  else
    match truthy (body.getD ⟨none, none⟩).username,
        truthy (body.getD ⟨none, none⟩).password with
    | true, true =>
        match getPilotTokenByPassword cfg r with
        | (Except.error e, n) => (⟨401, jsonError e⟩, st, n)
        | (Except.ok d, n) => (⟨200, loginOkBody d⟩, st, n)
    | _, _ => (⟨400, jsonError "Missing username/password"⟩, st, 0)

/-- First variant healthcheck `GET /` (src/server.js lines 139-141). -/
def healthHandler : HttpResponse := ⟨200, "OK"⟩

/-- Second variant healthcheck `GET /` (src/server.js lines 353-355). -/
def healthHandler2 : HttpResponse := ⟨200, "VA EFB Proxy OK"⟩

/-! Concrete sample values used by witnesses and counterexamples. -/

/-- A fully configured environment with the password grant disabled. -/
def cfg0 : Config :=
  ⟨"https://vamsys.io/api/v3", "https://vamsys.io/oauth/token", "*",
   "client-id", "client-secret", false⟩

/-- The same environment with the password grant enabled. -/
def cfgPw : Config :=
  ⟨"https://vamsys.io/api/v3", "https://vamsys.io/oauth/token", "*",
   "client-id", "client-secret", true⟩

/-- A parsed token response carrying a one-hour token. -/
def tokData0 : TokenData := ⟨some "T", some "Bearer", some 3600, none, none⟩

/-- A successful token-endpoint exchange. -/
def tokOk0 : UpstreamResp := ⟨true, 200, "tok-body", some tokData0⟩

/-- A failed (401) token-endpoint exchange. -/
def tokBad0 : UpstreamResp := ⟨false, 401, "denied", none⟩

/-- A successful token-endpoint exchange whose JSON has no `expires_in`. -/
def tokNoExp0 : UpstreamResp :=
  ⟨true, 200, "tok-body", some ⟨some "T", some "Bearer", none, none, none⟩⟩

/-- An upstream flights response with a non-200 status and a JSON body. -/
def fl404 : FetchResp := ⟨404, "[1]", some "[1]"⟩

/-- An upstream flights response with status 200. -/
def fl200 : FetchResp := ⟨200, "[2]", some "[2]"⟩

/-! Claim theorems. -/

/-- C1: a call to the token-acquisition function of either variant
returns the cached token without any upstream token request when the
cached token is truthy (non-empty) and the current time is strictly
before the stored expiry; otherwise it makes exactly one upstream token
request and, when that request succeeds with a parseable body, returns
the freshly acquired token. -/
theorem C1_token_cache (cfg : Config) (st : Cache) (now : Int)
    (r : UpstreamResp) (d : TokenData)
    (hid : cfg.clientId ≠ "") (hsec : cfg.clientSecret ≠ "")
    (hj : r.json = some d) :
    (cacheValid st now = true →
        getClientToken cfg st now r = (Except.ok st.cachedToken, st, 0)
      ∧ getToken cfg st now r = (Except.ok st.cachedToken, st, 0))
  ∧ (cacheValid st now = false →
        (getClientToken cfg st now r).2.2 = 1
      ∧ (getToken cfg st now r).2.2 = 1
      ∧ (r.ok = true →
            (getClientToken cfg st now r).1 = Except.ok d.access_token
          ∧ (getToken cfg st now r).1 = Except.ok d.access_token)) := by
  constructor
  · intro h
    exact ⟨by simp [getClientToken, h], by simp [getToken, h]⟩
  · intro h
    cases hok : r.ok
    · refine ⟨?_, ?_, ?_⟩ <;>
        simp [getClientToken, getToken, h, hid, hsec, hok, hj]
    · refine ⟨?_, ?_, ?_⟩ <;>
        simp [getClientToken, getToken, h, hid, hsec, hok, hj]

/-- C1 witness: at time 1000 with an empty initial cache the refresh path
of both variants is exercised on a concrete successful exchange. -/
theorem C1_token_cache_witness :
    (getClientToken cfg0 initialCache 1000 tokOk0).2.2 = 1
  ∧ (getToken cfg0 initialCache 1000 tokOk0).2.2 = 1
  ∧ (getClientToken cfg0 initialCache 1000 tokOk0).1
      = Except.ok tokData0.access_token
  ∧ (getToken cfg0 initialCache 1000 tokOk0).1
      = Except.ok tokData0.access_token := by
  have h := C1_token_cache cfg0 initialCache 1000 tokOk0 tokData0
    (by decide) (by decide) (by decide)
  have h2 := h.2 (by decide)
  exact ⟨h2.1, h2.2.1, (h2.2.2 (by decide)).1, (h2.2.2 (by decide)).2⟩

/-- C4: either token-acquisition function makes at most one upstream
token request, and when the cache was not valid (so a request was
attempted) and the upstream answered non-OK, the function throws and the
cache tuple is left exactly as it was. -/
theorem C4_no_retry_failure_frame (cfg : Config) (st : Cache) (now : Int)
    (r : UpstreamResp) :
    (getClientToken cfg st now r).2.2 ≤ 1
  ∧ (getToken cfg st now r).2.2 ≤ 1
  ∧ (cacheValid st now = false → r.ok = false →
        (∃ e, (getClientToken cfg st now r).1 = Except.error e)
      ∧ (getClientToken cfg st now r).2.1 = st
      ∧ (∃ e, (getToken cfg st now r).1 = Except.error e)
      ∧ (getToken cfg st now r).2.1 = st) := by
  refine ⟨?_, ?_, ?_⟩
  · unfold getClientToken
    split
    · simp
    · split
      · simp
      · split
        · simp
        · split
          · simp
          · cases hj : r.json <;> simp
  · unfold getToken
    split
    · simp
    · split
      · simp
      · cases hj : r.json <;> simp
  · intro hv hok
    by_cases hid : cfg.clientId = "" <;>
      by_cases hsec : cfg.clientSecret = "" <;>
        simp [getClientToken, getToken, hv, hok, hid, hsec]

/-- C4 witness: a failed exchange on an invalid cache leaves the initial
cache untouched in both variants. -/
theorem C4_no_retry_failure_frame_witness :
    (∃ e, (getClientToken cfg0 initialCache 1000 tokBad0).1 = Except.error e)
  ∧ (getClientToken cfg0 initialCache 1000 tokBad0).2.1 = initialCache
  ∧ (∃ e, (getToken cfg0 initialCache 1000 tokBad0).1 = Except.error e)
  ∧ (getToken cfg0 initialCache 1000 tokBad0).2.1 = initialCache := by
  have h :=
    (C4_no_retry_failure_frame cfg0 initialCache 1000 tokBad0).2.2
      (by decide) (by decide)
  exact ⟨h.1, h.2.1, h.2.2.1, h.2.2.2⟩

/-- C5: every successful token acquisition overwrites both components of
the cache: the cached token becomes the response's `access_token`, and
the expiry becomes the time observed at the start of the call plus the
lifetime `(expires_in - 60)` seconds in milliseconds (stated for an
`expires_in` of at least 60, where the first variant's default and clamp
do not interfere). -/
theorem C5_refresh_overwrites_cache (cfg : Config) (st : Cache) (now : Int)
    (r : UpstreamResp) (d : TokenData) (e : Int)
    (hv : cacheValid st now = false)
    (hid : cfg.clientId ≠ "") (hsec : cfg.clientSecret ≠ "")
    (hok : r.ok = true) (hj : r.json = some d)
    (he : d.expires_in = some e) (h60 : 60 ≤ e) :
    (getClientToken cfg st now r).2.1
      = ⟨d.access_token, some (now + (e - 60) * 1000)⟩
  ∧ (getToken cfg st now r).2.1
      = ⟨d.access_token, some (now + (e - 60) * 1000)⟩ := by
  have hne : e ≠ 0 := by omega
  have hmax : max 0 (e - 60) = e - 60 := by omega
  constructor
  · simp [getClientToken, hv, hid, hsec, hok, hj, clientExpiry, jsOrDefault,
      he, hne, hmax]
  · simp [getToken, hv, hok, hj, tokenExpiry2, he]

/-- C5 witness: the concrete successful exchange with `expires_in = 3600`
stores the token and the expiry `1000 + 3540 * 1000`. -/
theorem C5_refresh_overwrites_cache_witness :
    (getClientToken cfg0 initialCache 1000 tokOk0).2.1
      = ⟨tokData0.access_token, some (1000 + (3600 - 60) * 1000)⟩
  ∧ (getToken cfg0 initialCache 1000 tokOk0).2.1
      = ⟨tokData0.access_token, some (1000 + (3600 - 60) * 1000)⟩ :=
  C5_refresh_overwrites_cache cfg0 initialCache 1000 tokOk0 tokData0 3600
    (by decide) (by decide) (by decide) (by decide) (by decide)
    (by decide) (by decide)

/-- C10: in the first variant, after every successful refresh the stored
expiry is at least the time observed at the start of the call — the
lifetime is `Math.max(0, (expires_in || 3600) - 60) * 1000`, clamped
below at zero — and a missing `expires_in` defaults to 3600 seconds,
storing `now + 3540 * 1000`. -/
theorem C10_expiry_never_past (cfg : Config) (st : Cache) (now : Int)
    (r : UpstreamResp) (d : TokenData)
    (hv : cacheValid st now = false)
    (hid : cfg.clientId ≠ "") (hsec : cfg.clientSecret ≠ "")
    (hok : r.ok = true) (hj : r.json = some d) :
    (∃ t, (getClientToken cfg st now r).2.1.tokenExpiresAt = some t ∧ now ≤ t)
  ∧ (d.expires_in = none →
      (getClientToken cfg st now r).2.1.tokenExpiresAt
        = some (now + 3540 * 1000)) := by
  constructor
  · refine ⟨clientExpiry now d.expires_in, ?_, ?_⟩
    · simp [getClientToken, hv, hid, hsec, hok, hj]
    · unfold clientExpiry
      have h1 : 0 ≤ max 0 (jsOrDefault d.expires_in 3600 - 60) :=
        le_max_left 0 _
      nlinarith
  · intro he
    simp [getClientToken, hv, hid, hsec, hok, hj, clientExpiry, jsOrDefault, he]

/-- C10 witness: a successful exchange without `expires_in` stores the
default expiry `1000 + 3540 * 1000`, which is not in the past. -/
theorem C10_expiry_never_past_witness :
    (∃ t, (getClientToken cfg0 initialCache 1000 tokNoExp0).2.1.tokenExpiresAt
        = some t ∧ (1000 : Int) ≤ t)
  ∧ (getClientToken cfg0 initialCache 1000 tokNoExp0).2.1.tokenExpiresAt
      = some (1000 + 3540 * 1000) := by
  have h := C10_expiry_never_past cfg0 initialCache 1000 tokNoExp0
    ⟨some "T", some "Bearer", none, none, none⟩
    (by decide) (by decide) (by decide) (by decide) (by decide)
  exact ⟨h.1, h.2 (by decide)⟩

/-- C2 counterexample: the claim fails on the second variant's debug
flights-raw passthrough. At a concrete run whose upstream flights fetch
completed with status 404, that handler responds with status 200 (via
`res.json(data)`), not the upstream status. -/
theorem C2_counterexample :
    (debugFlightsRaw2 cfg0 initialCache2 1000 tokOk0
        (Except.ok fl404)).1.status = 200
  ∧ fl404.status = 404
  ∧ (debugFlightsRaw2 cfg0 initialCache2 1000 tokOk0
        (Except.ok fl404)).1.status ≠ fl404.status := by
  decide

/-- C2 amended: when the upstream flights request completes, the first
variant's two passthroughs and the second variant's `GET /api/flights`
relay the upstream status and body text exactly; the second variant's
debug flights-raw instead replies 200 with the re-serialised JSON of the
upstream body. -/
theorem C2_amended_forwarding (cfg : Config) (st : Cache) (now : Int)
    (r : UpstreamResp) (fr : FetchResp) (t t2 : Option String) (j : String)
    (h1 : (getClientToken cfg st now r).1 = Except.ok t)
    (h2 : (getToken cfg st now r).1 = Except.ok t2)
    (hj : fr.jsonText = some j) :
    (flightsHandler cfg st now r (Except.ok fr)).1 = ⟨fr.status, fr.text⟩
  ∧ (debugFlightsRaw cfg st now r (Except.ok fr)).1 = ⟨fr.status, fr.text⟩
  ∧ (flightsHandler2 cfg st now r (Except.ok fr)).1 = ⟨fr.status, fr.text⟩
  ∧ (debugFlightsRaw2 cfg st now r (Except.ok fr)).1 = ⟨200, j⟩ := by
  rcases hgc : getClientToken cfg st now r with ⟨res1, st1, n1⟩
  rcases hgt : getToken cfg st now r with ⟨res2, st2, n2⟩
  rw [hgc] at h1
  rw [hgt] at h2
  simp only at h1 h2
  subst h1 h2
  refine ⟨?_, ?_, ?_, ?_⟩ <;>
    simp [flightsHandler, debugFlightsRaw, flightsHandler2, debugFlightsRaw2,
      hgc, hgt, hj]

/-- C2 amended witness: a concrete successful run through all four
forwarding handlers. -/
theorem C2_amended_forwarding_witness :
    (flightsHandler cfg0 initialCache 1000 tokOk0 (Except.ok fl200)).1
      = ⟨fl200.status, fl200.text⟩
  ∧ (debugFlightsRaw cfg0 initialCache 1000 tokOk0 (Except.ok fl200)).1
      = ⟨fl200.status, fl200.text⟩
  ∧ (flightsHandler2 cfg0 initialCache 1000 tokOk0 (Except.ok fl200)).1
      = ⟨fl200.status, fl200.text⟩
  ∧ (debugFlightsRaw2 cfg0 initialCache 1000 tokOk0 (Except.ok fl200)).1
      = ⟨200, "[2]"⟩ :=
  C2_amended_forwarding cfg0 initialCache 1000 tokOk0 fl200
    tokData0.access_token tokData0.access_token "[2]"
    (by rfl) (by rfl) (by rfl)

/-- C3 counterexample: the claim fails on `POST /api/login`, whose catch
block responds 401, not 500. At a concrete run with the grant enabled,
credentials present and a failing upstream exchange, the response status
is 401. -/
theorem C3_counterexample :
    (loginHandler cfgPw initialCache (some ⟨some "u", some "p"⟩)
        tokBad0).1.status = 401
  ∧ (loginHandler cfgPw initialCache (some ⟨some "u", some "p"⟩)
        tokBad0).1.status ≠ 500 := by
  decide

/-- C3 amended: whenever handling a request throws, every handler except
`POST /api/login` collapses the failure to status 500 with a JSON error
body; the login handler's catch responds 401 with a JSON error body. -/
theorem C3_amended_catch (cfg : Config) (st : Cache) (now : Int)
    (r : UpstreamResp) (e : String) (body : Option LoginBody) (b : LoginBody) :
    ((getClientToken cfg st now r).1 = Except.error e →
       ∀ fl, (flightsHandler cfg st now r fl).1 = ⟨500, jsonError e⟩
           ∧ (debugFlightsRaw cfg st now r fl).1 = ⟨500, jsonError e⟩)
  ∧ ((getToken cfg st now r).1 = Except.error e →
       ∀ fl, (flightsHandler2 cfg st now r fl).1 = ⟨500, jsonError e⟩
           ∧ (debugFlightsRaw2 cfg st now r fl).1
               = ⟨500, jsonError (jsErrorString e)⟩)
  ∧ (∀ t, (getClientToken cfg st now r).1 = Except.ok t →
        (flightsHandler cfg st now r (Except.error e)).1 = ⟨500, jsonError e⟩
      ∧ (debugFlightsRaw cfg st now r (Except.error e)).1 = ⟨500, jsonError e⟩)
  ∧ (∀ t, (getToken cfg st now r).1 = Except.ok t →
        (flightsHandler2 cfg st now r (Except.error e)).1 = ⟨500, jsonError e⟩
      ∧ (debugFlightsRaw2 cfg st now r (Except.error e)).1
          = ⟨500, jsonError (jsErrorString e)⟩)
  ∧ (cfg.enablePasswordGrant = true → body = some b →
      truthy b.username = true → truthy b.password = true →
      (getPilotTokenByPassword cfg r).1 = Except.error e →
        (loginHandler cfg st body r).1 = ⟨401, jsonError e⟩) := by
  rcases hgc : getClientToken cfg st now r with ⟨res1, st1, n1⟩
  rcases hgt : getToken cfg st now r with ⟨res2, st2, n2⟩
  refine ⟨?_, ?_, ?_, ?_, ?_⟩
  · intro h fl
    simp only at h
    subst h
    exact ⟨by simp [flightsHandler, hgc], by simp [debugFlightsRaw, hgc]⟩
  · intro h fl
    simp only at h
    subst h
    exact ⟨by simp [flightsHandler2, hgt], by simp [debugFlightsRaw2, hgt]⟩
  · intro t h
    simp only at h
    subst h
    exact ⟨by simp [flightsHandler, hgc], by simp [debugFlightsRaw, hgc]⟩
  · intro t h
    simp only at h
    subst h
    exact ⟨by simp [flightsHandler2, hgt], by simp [debugFlightsRaw2, hgt]⟩
  · intro hen hb hu hp h
    rcases hgp : getPilotTokenByPassword cfg r with ⟨resp, np⟩
    rw [hgp] at h
    simp only at h
    subst h
    simp [loginHandler, hen, hb, hu, hp, hgp]

/-- C3 amended witness: a concrete failing token exchange yields 500 on
the flights handler and 401 on login. -/
theorem C3_amended_catch_witness :
    (flightsHandler cfg0 initialCache 1000 tokBad0 (Except.ok fl200)).1
      = ⟨500, jsonError (tokenFailMsg tokBad0)⟩
  ∧ (loginHandler cfgPw initialCache (some ⟨some "u", some "p"⟩) tokBad0).1
      = ⟨401, jsonError
            ("Password token failed (" ++ toString tokBad0.status ++ "): "
              ++ tokBad0.text)⟩ :=
  ⟨((C3_amended_catch cfg0 initialCache 1000 tokBad0 (tokenFailMsg tokBad0)
      none ⟨none, none⟩).1 (by rfl) (Except.ok fl200)).1,
   (C3_amended_catch cfgPw initialCache 1000 tokBad0
      ("Password token failed (" ++ toString tokBad0.status ++ "): "
        ++ tokBad0.text)
      (some ⟨some "u", some "p"⟩) ⟨some "u", some "p"⟩).2.2.2.2
      (by decide) (by decide) (by decide) (by decide) (by rfl)⟩

/-- C8: the events endpoint is a pure echo stub: it makes no upstream
call, leaves the cache tuple unchanged, and responds 200 with a JSON body
in which the `flightId` path parameter and the request body (defaulting
to `{}` when absent) both appear verbatim. -/
theorem C8_events_echo (st : Cache) (flightId : String) (body : Option String) :
    (eventsHandler st flightId body).2.1 = st
  ∧ (eventsHandler st flightId body).2.2 = 0
  ∧ (eventsHandler st flightId body).1.status = 200
  ∧ ∃ pre mid post,
      (eventsHandler st flightId body).1.body
        = pre ++ flightId ++ mid ++ (body.getD emptyObjText) ++ post :=
  ⟨rfl, rfl, rfl,
   "\x7b\"ok\":true,\"flightId\":\"", "\",\"received\":",
   ",\"note\":\"Stored nowhere yet (demo).\"\x7d", rfl⟩

/-- C9: `POST /api/login` rejects with 400, makes no upstream request and
leaves the cache unchanged, both when the password grant is disabled and
when it is enabled but the username or password is missing (the absent
body defaulting to `{}`). -/
theorem C9_login_guards (cfg : Config) (st : Cache) (body : Option LoginBody)
    (r : UpstreamResp) :
    (cfg.enablePasswordGrant = false →
        loginHandler cfg st body r = (⟨400, jsonError pwDisabledMsg⟩, st, 0))
  ∧ (cfg.enablePasswordGrant = true →
      (truthy (body.getD ⟨none, none⟩).username = false
        ∨ truthy (body.getD ⟨none, none⟩).password = false) →
        loginHandler cfg st body r
          = (⟨400, jsonError "Missing username/password"⟩, st, 0)) := by
  constructor
  · intro h
    simp [loginHandler, h]
  · intro h hmiss
    cases hu : truthy (body.getD ⟨none, none⟩).username <;>
      cases hp : truthy (body.getD ⟨none, none⟩).password <;>
        simp [loginHandler, h, hu, hp] <;>
          rcases hmiss with hm | hm <;> simp_all

/-- C9 witness: the disabled-grant and missing-password rejections at
concrete inputs. -/
theorem C9_login_guards_witness :
    loginHandler cfg0 initialCache (some ⟨some "u", some "p"⟩) tokOk0
      = (⟨400, jsonError pwDisabledMsg⟩, initialCache, 0)
  ∧ loginHandler cfgPw initialCache (some ⟨some "u", none⟩) tokOk0
      = (⟨400, jsonError "Missing username/password"⟩, initialCache, 0) :=
  ⟨(C9_login_guards cfg0 initialCache (some ⟨some "u", some "p"⟩) tokOk0).1
      (by decide),
   (C9_login_guards cfgPw initialCache (some ⟨some "u", none⟩) tokOk0).2
      (by decide) (by decide)⟩

/-- Like `cfg0` but with a different (non-empty) client secret. -/
def cfgB : Config :=
  ⟨"https://vamsys.io/api/v3", "https://vamsys.io/oauth/token", "*",
   "client-id", "another-secret", false⟩

/-- `getClientToken` reads the client secret only through the emptiness
test of `assertEnv`, so any two non-empty secrets give identical
behaviour. -/
theorem getClientToken_secret_irrel (c1 c2 : Config)
    (hI : c2.clientId = c1.clientId)
    (h1 : c1.clientSecret ≠ "") (h2 : c2.clientSecret ≠ "")
    (st : Cache) (now : Int) (r : UpstreamResp) :
    getClientToken c1 st now r = getClientToken c2 st now r := by
  unfold getClientToken
  rw [hI]
  simp [h1, h2]

/-- `getPilotTokenByPassword` likewise reads the secret only through
`assertEnv`. -/
theorem getPilotTokenByPassword_secret_irrel (c1 c2 : Config)
    (hI : c2.clientId = c1.clientId)
    (h1 : c1.clientSecret ≠ "") (h2 : c2.clientSecret ≠ "")
    (r : UpstreamResp) :
    getPilotTokenByPassword c1 r = getPilotTokenByPassword c2 r := by
  unfold getPilotTokenByPassword
  rw [hI]
  simp [h1, h2]

/-- C6: the proxy shields the client secret: two runs that differ only in
the (non-empty) value of the client secret produce identical responses on
every endpoint of both variants — in particular `GET /api/_debug/info`
exposes only the boolean presence of the client id and secret. (The
events and healthcheck handlers read no configuration at all, so they are
covered trivially.) -/
theorem C6_secret_shielded (c1 c2 : Config)
    (hA : c2.apiBase = c1.apiBase) (hT : c2.tokenUrl = c1.tokenUrl)
    (hC : c2.corsOrigin = c1.corsOrigin) (hI : c2.clientId = c1.clientId)
    (hP : c2.enablePasswordGrant = c1.enablePasswordGrant)
    (h1 : c1.clientSecret ≠ "") (h2 : c2.clientSecret ≠ "") :
    debugInfo c1 = debugInfo c2
  ∧ (∀ st now r fl, flightsHandler c1 st now r fl = flightsHandler c2 st now r fl)
  ∧ (∀ st now r fl, debugFlightsRaw c1 st now r fl = debugFlightsRaw c2 st now r fl)
  ∧ (∀ st now r fl, flightsHandler2 c1 st now r fl = flightsHandler2 c2 st now r fl)
  ∧ (∀ st now r fl, debugFlightsRaw2 c1 st now r fl = debugFlightsRaw2 c2 st now r fl)
  ∧ (∀ st body r, loginHandler c1 st body r = loginHandler c2 st body r) := by
  refine ⟨?_, ?_, ?_, ?_, ?_, ?_⟩
  · unfold debugInfo infoBody
    rw [hA, hT, hC, hI, hP]
    simp [jsBoolOfString, h1, h2]
  · intro st now r fl
    unfold flightsHandler
    rw [getClientToken_secret_irrel c1 c2 hI h1 h2 st now r]
  · intro st now r fl
    unfold debugFlightsRaw
    rw [getClientToken_secret_irrel c1 c2 hI h1 h2 st now r]
  · intro st now r fl
    rfl
  · intro st now r fl
    rfl
  · intro st body r
    unfold loginHandler
    rw [hP, getPilotTokenByPassword_secret_irrel c1 c2 hI h1 h2 r]

/-- C6 witness: two concrete configurations differing only in their
non-empty secrets agree on the debug-info response and on a concrete
flights run. -/
theorem C6_secret_shielded_witness :
    debugInfo cfg0 = debugInfo cfgB
  ∧ flightsHandler cfg0 initialCache 1000 tokOk0 (Except.ok fl200)
      = flightsHandler cfgB initialCache 1000 tokOk0 (Except.ok fl200) :=
  have h := C6_secret_shielded cfg0 cfgB (by decide) (by decide) (by decide)
    (by decide) (by decide) (by decide) (by decide)
  ⟨h.1, h.2.1 initialCache 1000 tokOk0 (Except.ok fl200)⟩

/-- The first variant's cache after a refresh at time 1000 from a token
response with no `expires_in`. -/
def c7CacheV1 : Cache := (getClientToken cfg0 initialCache 1000 tokNoExp0).2.1

/-- The second variant's cache after the same refresh. -/
def c7CacheV2 : Cache := (getToken cfg0 initialCache2 1000 tokNoExp0).2.1

/-- C7 counterexample: the two client-credentials variants are not
behaviorally equivalent apart from error wording. After one successful
acquisition from a token response lacking `expires_in`, the first variant
stores the default expiry `1000 + 3540 * 1000` while the second stores
NaN; one second later the first variant serves from cache (no upstream
request) while the second makes another upstream token request. -/
theorem C7_counterexample :
    c7CacheV1.tokenExpiresAt = some (1000 + 3540 * 1000)
  ∧ c7CacheV2.tokenExpiresAt = none
  ∧ (getClientToken cfg0 c7CacheV1 2000 tokNoExp0).2.2 = 0
  ∧ (getToken cfg0 c7CacheV2 2000 tokNoExp0).2.2 = 1 := by
  decide

/-- C7 amended: with configured credentials and a token response whose
JSON carries `expires_in ≥ 60`, `getClientToken` and `getToken` agree on
the resulting cache and request count, succeed or throw together with the
same returned token, and the two `GET /api/flights` handlers agree on the
response status and on the full response whenever token acquisition
succeeded — the remaining differences are error-message wording, the env
assertions, and the expiry computation for small or missing `expires_in`
exhibited by the counterexample. -/
theorem C7_amended_equiv (cfg : Config) (st : Cache) (now : Int)
    (r : UpstreamResp) (d : TokenData) (e : Int)
    (hid : cfg.clientId ≠ "") (hsec : cfg.clientSecret ≠ "")
    (hj : r.json = some d) (he : d.expires_in = some e) (h60 : 60 ≤ e) :
    (getClientToken cfg st now r).2 = (getToken cfg st now r).2
  ∧ (∀ t, (getClientToken cfg st now r).1 = Except.ok t ↔
          (getToken cfg st now r).1 = Except.ok t)
  ∧ ((∃ m, (getClientToken cfg st now r).1 = Except.error m) ↔
     (∃ m, (getToken cfg st now r).1 = Except.error m))
  ∧ (∀ fl, (flightsHandler cfg st now r fl).1.status
              = (flightsHandler2 cfg st now r fl).1.status
      ∧ (flightsHandler cfg st now r fl).2 = (flightsHandler2 cfg st now r fl).2
      ∧ (∀ t, (getClientToken cfg st now r).1 = Except.ok t →
          flightsHandler cfg st now r fl = flightsHandler2 cfg st now r fl)) := by
  have hne : e ≠ 0 := by omega
  have hmax : max 0 (e - 60) = e - 60 := by omega
  by_cases hv : cacheValid st now = true
  · have hmain : getClientToken cfg st now r = getToken cfg st now r := by
      simp [getClientToken, getToken, hv]
    refine ⟨by rw [hmain], fun t => by rw [hmain], by rw [hmain], fun fl => ?_⟩
    unfold flightsHandler flightsHandler2
    rw [hmain]
    exact ⟨rfl, rfl, fun t _ => rfl⟩
  · have hv' : cacheValid st now = false := by simpa using hv
    cases hok : r.ok
    · have hc : getClientToken cfg st now r
          = (Except.error (tokenFailMsg r), st, 1) := by
        simp [getClientToken, hv', hid, hsec, hok]
      have ht : getToken cfg st now r
          = (Except.error ("Token error: " ++ r.text), st, 1) := by
        simp [getToken, hv', hok]
      refine ⟨by rw [hc, ht], ?_, ?_, ?_⟩
      · intro t
        rw [hc, ht]
        simp
      · rw [hc, ht]
        simp
      · intro fl
        unfold flightsHandler flightsHandler2
        rw [hc, ht]
        refine ⟨?_, ?_, ?_⟩
        · cases fl <;> rfl
        · cases fl <;> rfl
        · intro t htt
          simp at htt
    · have hmain : getClientToken cfg st now r = getToken cfg st now r := by
        simp [getClientToken, getToken, hv', hid, hsec, hok, hj, clientExpiry,
          jsOrDefault, he, hne, hmax, tokenExpiry2]
      refine ⟨by rw [hmain], fun t => by rw [hmain], by rw [hmain], fun fl => ?_⟩
      unfold flightsHandler flightsHandler2
      rw [hmain]
      exact ⟨rfl, rfl, fun t _ => rfl⟩

/-- C7 amended witness: a concrete successful run on which the two
variants agree. -/
theorem C7_amended_equiv_witness :
    (getClientToken cfg0 initialCache 1000 tokOk0).2
      = (getToken cfg0 initialCache 1000 tokOk0).2
  ∧ (flightsHandler cfg0 initialCache 1000 tokOk0 (Except.ok fl200)).1.status
      = (flightsHandler2 cfg0 initialCache 1000 tokOk0
          (Except.ok fl200)).1.status :=
  have h := C7_amended_equiv cfg0 initialCache 1000 tokOk0 tokData0 3600
    (by decide) (by decide) (by decide) (by decide) (by decide)
  ⟨h.1, (h.2.2.2 (Except.ok fl200)).1⟩

end VaEfb
